import Mathlib

/-!
Verification of the Football-Internship scraping scripts.

This file gives a shallow embedding, in Lean, of the text-processing and
control-flow fragments of the repository scripts (fetch_scoring.py,
fetch_scoring_v3.py, fetch_defense.py, fetch_receiving.py, clean_scoring.py,
merge_to_single_db.py, record_game_results.py, and the per-script I/O
manifests), together with theorems settling the specification claims.

Strings are modelled as lists of characters where character-level processing
matters; Python string operations (strip, replace, slicing, the in operator)
are translated operation by operation.
-/

/-! ## Basic Python string operations -/

/-- Python whitespace for str.strip: space, tab, newline, carriage return,
vertical tab, form feed. -/
def isPySpace (c : Char) : Bool :=
  c = ' ' || c = '\t' || c = '\n' || c = '\r' || c = '\x0b' || c = '\x0c'

/-- Remove trailing characters satisfying isPySpace. -/
def dropTrail (s : List Char) : List Char :=
  (s.reverse.dropWhile isPySpace).reverse

/-- Python str.strip: remove leading and trailing whitespace. -/
def pyStrip (s : List Char) : List Char :=
  dropTrail (s.dropWhile isPySpace)

/-- Does pat occur at the start of s (Python str.startswith)? -/
def startsSeq : List Char → List Char → Bool
  | [], _ => true
  | _ :: _, [] => false
  | a :: as, b :: bs => a = b && startsSeq as bs

/-- Does pat occur contiguously inside s (the Python in operator on strings)? -/
def containsSeq (pat : List Char) : List Char → Bool
  | [] => pat.isEmpty
  | c :: rest => startsSeq pat (c :: rest) || containsSeq pat rest

/-- Python str.replace with a nonempty pattern: replace every occurrence of
pat in s by the empty string. The scripts only call replace to delete
substrings, so the replacement text is fixed to empty. -/
def pyDelete (s pat : List Char) : List Char :=
  match s with
  | [] => []
  | c :: rest =>
    if pat ≠ [] ∧ startsSeq pat (c :: rest) = true then pyDelete ((c :: rest).drop pat.length) pat
    else c :: pyDelete rest pat
termination_by s.length
decreasing_by
  · simp only [List.length_drop]
    have hp : pat.length ≠ 0 := by
      rename_i h
      intro hz
      exact h.1 (List.eq_nil_of_length_eq_zero hz)
    simp only [List.length_cons]
    omega
  · simp

/-! ## clean_scoring.py and fetch_scoring.py: duplicated-name collapse (claim C10) -/

/-- Python check s[:n] == s[n:2*n]. -/
def dupAt (s : List Char) (n : Nat) : Bool :=
  decide (s.take n = (s.drop n).take n)

/-- The loop for n in range(i, i+fuel): if s[:n] == s[n:2*n]: return n. -/
def findDupFrom (s : List Char) : Nat → Nat → Option Nat
  | _, 0 => none
  | n, fuel + 1 => if dupAt s n then some n else findDupFrom s (n + 1) fuel

/-- The loop for n in range(3, len(s)//2 + 1) searching the first duplicated
leading block. -/
def firstDup (s : List Char) : Option Nat :=
  findDupFrom s 3 (s.length / 2 + 1 - 3)

/-- collapse_dup from fetch_scoring.py (parse_table and the pandas branch):
strip, then for split in range(3, L//2+1): if s[:split]==s[split:2*split]:
return s[split:2*split].strip(); else return the stripped string. -/
def collapse_dup (s : List Char) : List Char :=
  match firstDup (pyStrip s) with
  | some n => pyStrip (((pyStrip s).drop n).take n)
  | none => pyStrip s

/-- collapse_dup_name from clean_scoring.py: strip, remove digits, then
for n in range(3, L//2+1): if s[:n]==s[n:2*n]: return s[:n].strip();
else return the remaining string. -/
def collapse_dup_name (s : List Char) : List Char :=
  match firstDup ((pyStrip s).filter (fun c => !c.isDigit)) with
  | some n => pyStrip (((pyStrip s).filter (fun c => !c.isDigit)).take n)
  | none => (pyStrip s).filter (fun c => !c.isDigit)

/-! ## Header normalization and fuzzy column matching (claim C1) -/

/-- Norm from fetch_scoring_v3.py: the regex substitution removes every
character outside A-Z and 0-9 from the uppercased string. -/
def normV3 (s : String) : List Char :=
  (s.toList.map Char.toUpper).filter (fun c => c.isUpper || c.isDigit)

/-- Norm from fetch_scoring.py parse_table and its pandas branch: keep
alphanumeric characters, then uppercase. -/
def normScoring (s : String) : List Char :=
  (s.toList.filter (fun c => c.isAlphanum)).map Char.toUpper

/-- Modelled from the claim wording: the normalized form of a header is the
uppercased text with all non-alphanumeric characters removed. -/
def specNorm (s : String) : List Char :=
  (s.toList.map Char.toUpper).filter (fun c => c.isAlphanum)

/-- The three-way fuzzy test shared by every matcher: equal, contained in
the header, or containing the header. -/
def matchRel (w hn : List Char) : Bool :=
  decide (w = hn) || containsSeq w hn || containsSeq hn w

/-- Column lookup of fetch_scoring.py: index of the first header whose
normalized form fuzzily matches the normalized wanted name. -/
def scoringFindIdx (want : String) (headers : List String) : Option Nat :=
  (headers.map normScoring).findIdx? (fun hn => matchRel (normScoring want) hn)

/-- Column lookup of fetch_scoring_v3.py fetch_year: the same loop, except
that headers with an empty normalized form are skipped. -/
def v3FindMatch (want : String) (headers : List String) : Option Nat :=
  (headers.map normV3).findIdx? (fun hn => !hn.isEmpty && matchRel (normV3 want) hn)

/-- Modelled from the claim wording: the wanted column maps to the first
header, in left-to-right table order, whose normalized form is equal to, a
substring of, or a superstring of the normalized wanted name. -/
def specFirstMatch (want : String) (headers : List String) : Option Nat :=
  (headers.map specNorm).findIdx? (fun hn => matchRel (specNorm want) hn)

/-- The claim rule restricted to headers whose normalized form is nonempty. -/
def specFirstMatchNE (want : String) (headers : List String) : Option Nat :=
  (headers.map specNorm).findIdx? (fun hn => !hn.isEmpty && matchRel (specNorm want) hn)

/-- The regex class of whitespace or a literal dot used by fetch_defense.py. -/
def isWsDot (c : Char) : Bool := isPySpace c || c = '.'

/-- Header normalization in fetch_defense.py normalize_and_write: uppercase,
map en dash to hyphen, drop whitespace and dots. -/
def defNormHeader (h : String) : List Char :=
  ((h.toList.map Char.toUpper).map (fun c => if c = '–' then '-' else c)).filter
    (fun c => !isWsDot c)

/-- Target normalization in fetch_defense.py find_idx: uppercase, drop
whitespace and dots. -/
def defNormTarget (s : String) : List Char :=
  (s.toList.map Char.toUpper).filter (fun c => !isWsDot c)

/-- Is c a regex word character? -/
def isWordChar (c : Char) : Bool := c.isAlphanum || c = '_'

/-- The special-case fallback of find_idx for the # column: the stripped
header equals one of four spellings, or the header starts with a hash, or
starts with a case-insensitive no followed by a word boundary. -/
def hashHeaderFallback (h : String) : Bool :=
  decide (pyStrip h.toList = ['#']) || decide (pyStrip h.toList = ['N', 'o']) ||
  decide (pyStrip h.toList = ['N', 'o', '.']) || decide (pyStrip h.toList = ['N', 'O']) ||
  (match h.toList with
   | '#' :: _ => true
   | c1 :: c2 :: rest =>
     c1.toLower = 'n' && c2.toLower = 'o' &&
       (match rest with
        | [] => true
        | c3 :: _ => !isWordChar c3)
   | _ => false)

/-- The lowercased whitespace-and-dot-free header text used by the Name
fallback of find_idx. -/
def lowerNorm (h : String) : List Char :=
  (h.toList.map Char.toLower).filter (fun c => !isWsDot c)

/-- The special-case fallback of find_idx for the Name column: a header
containing player after normalization, or equal to a player spelling after
strip and lowercase. -/
def nameHeaderFallback (h : String) : Bool :=
  containsSeq "player".toList (lowerNorm h) ||
  containsSeq "playername".toList (lowerNorm h) ||
  decide ((pyStrip h.toList).map Char.toLower = "player".toList) ||
  decide ((pyStrip h.toList).map Char.toLower = "player name".toList) ||
  decide ((pyStrip h.toList).map Char.toLower = "playername".toList)

/-- find_idx from fetch_defense.py: fuzzy loop first, then the special
fallbacks for the # and Name columns, otherwise no index. -/
def find_idx (headers : List String) (colName : String) : Option Nat :=
  match (headers.map defNormHeader).findIdx?
      (fun hn => matchRel (defNormTarget colName) hn) with
  | some i => some i
  | none =>
    if colName = "#" then headers.findIdx? hashHeaderFallback
    else if colName = "Name" then headers.findIdx? nameHeaderFallback
    else none

/-- The wanted scoring columns of fetch_scoring.py and fetch_scoring_v3.py. -/
def WANT_COLS : List String :=
  ["#", "Name", "TD", "FG", "SAF", "KICK", "RUSH", "RCV", "PASS", "DXP", "PTS"]

/-- Read the cell at the given index when defined and in range, else the
empty string, as in parse_table and normalize_and_write. -/
def cellAt (cells : List String) (idx : Option Nat) : String :=
  match idx with
  | some i => if h : i < cells.length then cells.get ⟨i, h⟩ else ""
  | none => ""

/-- Name cleanup in fetch_scoring.py parse_table: delete the jersey number
when nonempty, drop all digits, collapse a duplicated leading block. -/
def scoringCleanName (nameRaw jersey : String) : List Char :=
  collapse_dup ((if jersey.toList.isEmpty then nameRaw.toList
    else pyDelete nameRaw.toList jersey.toList).filter (fun c => !c.isDigit))

/-- One output row of fetch_scoring.py parse_table: each wanted column takes
the cell under its matched header (empty when unmatched), the Name cell is
cleaned, and the year is appended. -/
def scoringParseRow (headerRow cells : List String) (year : Nat) :
    List (String × String) :=
  (WANT_COLS.map (fun col =>
    (col, if col = "Name" then
        String.mk (scoringCleanName (cellAt cells (scoringFindIdx "Name" headerRow))
          (cellAt cells (scoringFindIdx "#" headerRow)))
      else cellAt cells (scoringFindIdx col headerRow)))) ++ [("Year", toString year)]

/-! ## fetch_defense.py normalize_and_write and fetch_receiving.py (claim C6) -/

/-- The wanted defensive columns of fetch_defense.py. -/
def DESIRED : List String :=
  ["#", "Name", "GP", "NO", "SOLO", "ASST", "TOT", "TFL-YDS", "SACKS-YDS",
   "INT", "BU", "QBH", "FR", "FF", "KICK", "SAF"]

/-- Is c a newline or carriage return (the class the scripts split raw Name
cells on)? -/
def isNL (c : Char) : Bool := c = '\n' || c = '\r'

/-- Split on runs of newline and carriage return characters; the current
piece is accumulated in reverse. -/
def splitNLGo : List Char → List Char → List (List Char)
  | [], cur => [cur.reverse]
  | c :: rest, cur =>
    if isNL c then cur.reverse :: splitNLGo (rest.dropWhile isNL) []
    else splitNLGo rest (c :: cur)
termination_by s _ => s.length
decreasing_by
  · have := (List.dropWhile_sublist isNL (l := rest)).length_le
    simp only [List.length_cons]
    omega
  · simp

/-- The leading characters the Name fallback regex of fetch_defense.py
removes: digits, whitespace, double quote, apostrophe. -/
def isLeadJunk (c : Char) : Bool :=
  c.isDigit || isPySpace c || c = '"' || c = Char.ofNat 39

/-- Name cleanup in fetch_defense.py normalize_and_write: split the raw cell
on newline runs, strip the pieces and keep the nonempty ones, choose the
longest piece containing a comma; when there is none, drop leading junk from
the raw cell and strip; finally remove double quotes and strip. -/
def defenseCleanName (raw : List Char) : List Char :=
  let parts := ((splitNLGo raw []).map pyStrip).filter (fun p => !p.isEmpty)
  let cand := parts.foldl (fun best p =>
    if p.contains ',' then (if best.length < p.length then p else best) else best) []
  let cand2 := if cand.isEmpty then pyStrip (raw.dropWhile isLeadJunk) else cand
  pyStrip (cand2.filter (fun c => !(c = '"')))

/-- The value fetch_defense.py normalize_and_write stores for one column of
one row. -/
def defenseCellVal (headers r : List String) (col : String) : String :=
  if col = "Name" && !(cellAt r (find_idx headers col)).toList.isEmpty
  then String.mk (defenseCleanName (cellAt r (find_idx headers col)).toList)
  else cellAt r (find_idx headers col)

/-- One output dictionary of fetch_defense.py normalize_and_write. -/
def defenseRow (headers r : List String) (year : Nat) : List (String × String) :=
  (DESIRED.map (fun col => (col, defenseCellVal headers r col))) ++
  [("Year", toString year)]

/-- normalize_and_write from fetch_defense.py: nothing without rows or
headers, else one dictionary per raw row. -/
def normalize_and_write (rows : List (List String)) (headers : List String)
    (year : Nat) : List (List (String × String)) :=
  if rows.isEmpty || headers.isEmpty then []
  else rows.map (fun r => defenseRow headers r year)

/-- normalize_header from fetch_receiving.py: strip, uppercase, replace the
no-break space with a plain space. -/
def recvNormHeader (h : String) : List Char :=
  ((pyStrip h.toList).map Char.toUpper).map (fun c => if c = '\xa0' then ' ' else c)

/-- The index map of fetch_receiving.py parse_table: each normalized header
maps to its index, later duplicates overwriting earlier ones (a Python dict
comprehension). -/
def recvIdxGet (headers : List String) (key : List Char) : Option Nat :=
  headers.enum.foldl (fun acc p =>
    if recvNormHeader p.2 = key then some p.1 else acc) none

/-- find_index from fetch_receiving.py parse_table: the first alias present
in the index map. -/
def recvFindIndex (headers : List String) : List String → Option Nat
  | [] => none
  | p :: ps =>
    match recvIdxGet headers (recvNormHeader (String.mk p.toList)) with
    | some i => some i
    | none => recvFindIndex headers ps

/-- get_by_keys from fetch_receiving.py parse_table. -/
def recvGet (headers cells : List String) (keys : List String) : String :=
  match recvFindIndex headers keys with
  | some i => if h : i < cells.length then cells.get ⟨i, h⟩ else ""
  | none => ""

/-- clean_name from fetch_receiving.py parse_table: the first stripped
nonempty line containing a comma, else the first such line, else the raw
text. -/
def recvCleanName (raw : List Char) : List Char :=
  match (((splitNLGo raw []).map pyStrip).filter (fun p => !p.isEmpty)).find?
      (fun p => p.contains ',') with
  | some p => p
  | none =>
    match ((splitNLGo raw []).map pyStrip).filter (fun p => !p.isEmpty) with
    | p :: _ => p
    | [] => raw

/-- One receiving entry of parse_table, with the year column that fetch_year
appends to every row dictionary. -/
def receivingRow (headers cells : List String) (year : Nat) :
    List (String × String) :=
  [("#", recvGet headers cells ["#", "NO", "NUMBER"]),
   ("Name", String.mk (recvCleanName (recvGet headers cells ["NAME", "PLAYER"]).toList)),
   ("GP", recvGet headers cells ["GP", "G"]),
   ("NO", recvGet headers cells ["NO", "REC", "REC."]),
   ("yds", recvGet headers cells ["YDS", "YDS."]),
   ("avg", recvGet headers cells ["AVG"]),
   ("td", recvGet headers cells ["TD"]),
   ("long", recvGet headers cells ["LONG", "LG"]),
   ("AVG/G", recvGet headers cells ["AVG/G", "AVG/G."]),
   ("year", toString year)]

/-- The wanted receiving columns named in fetch_receiving.py. -/
def receivingWANTED : List String :=
  ["#", "Name", "GP", "NO", "YDS", "AVG", "TD", "LONG", "AVG/G"]

/-- The output column order hard-coded in fetch_receiving.py main: the year
column comes first. -/
def receivingOutCols : List String :=
  ["year", "#", "Name", "GP", "NO", "yds", "avg", "td", "long", "AVG/G"]

/-- The output column order of fetch_scoring.py and fetch_scoring_v3.py main. -/
def scoringOutCols : List String := WANT_COLS ++ ["Year"]

/-- The output column order of fetch_defense.py main. -/
def defenseOutCols : List String := DESIRED ++ ["Year"]

/-- The final column selection of each main: reorder to the fixed column
list, filling missing entries with the empty string and dropping everything
else (the pandas reindexing followed by to_csv). -/
def mainSelect (cols : List String) (rows : List (List (String × String))) :
    List String × List (List String) :=
  (cols, rows.map (fun r => cols.map (fun c => ((r.lookup c).getD ""))))

/-- The wanted-column mapping loop of fetch_scoring_v3.py fetch_year, before
the Name and # cells are overwritten by the regex cleanup. -/
def v3MapRow (headers cells : List String) : List (String × String) :=
  WANT_COLS.map (fun want =>
    (want, match v3FindMatch want headers with
      | some i => String.mk (pyStrip (cellAt cells (some i)).toList)
      | none => ""))

/-! ## Master CSV writes (claim C2) -/

/-- The append-mode master write of passing records.py,
all_time_season_rushing.py and fetch_receiving.py: to_csv with mode a and
header equal to not master.exists, so the header row is written only when
the file is absent and rows go after the existing content. -/
def csvAppendMaster (existing : Option (List (List String)))
    (hdr : List String) (rows : List (List String)) : List (List String) :=
  match existing with
  | none => hdr :: rows
  | some old => old ++ rows

/-- The write of fetch_defense.py main: to_csv with mode w and header True,
discarding any previous content. -/
def defenseWriteCsv (_existing : Option (List (List String)))
    (hdr : List String) (rows : List (List String)) : List (List String) :=
  hdr :: rows

/-! ## Per-year loop control flow (claim C3) -/

/-- The rows of all successfully processed years, in order. -/
def okRows {α : Type} : List (Except String (List α)) → List α
  | [] => []
  | Except.ok rows :: rest => rows ++ okRows rest
  | Except.error _ :: rest => okRows rest

/-- The reported error messages, in order. -/
def errMsgs {α : Type} : List (Except String (List α)) → List String
  | [] => []
  | Except.ok _ :: rest => errMsgs rest
  | Except.error e :: rest => e :: errMsgs rest

/-- One step of the caught per-year loop: accumulate rows of a good year,
record the message of a failed year and continue. -/
def caughtStep {α : Type} (acc : List α × List String)
    (r : Except String (List α)) : List α × List String :=
  match r with
  | Except.ok rows => (acc.1 ++ rows, acc.2)
  | Except.error e => (acc.1, acc.2 ++ [e])

/-- The main loop of fetch_scoring.py and the scrape_years loop of
record_game_results.py: every year runs inside a try block, errors are
printed and the loop continues. -/
def runYearsCaught {α : Type} (results : List (Except String (List α))) :
    List α × List String :=
  results.foldl caughtStep ([], [])

/-- fetch_year of fetch_scoring_v3.py: both request attempts failing is
caught and yields no rows without any error report; a parser exception
propagates to the caller. -/
def v3FetchYear {α : Type} (fetched : Option String)
    (parse : String → Except String (List α)) : Except String (List α) :=
  match fetched with
  | none => Except.ok []
  | some html => parse html

/-- One step of the uncaught fetch_scoring_v3.py main loop: an exception
aborts everything after it. -/
def v3Step {α : Type} (acc r : Except String (List α)) :
    Except String (List α) :=
  match acc, r with
  | Except.error e, _ => Except.error e
  | Except.ok rows, Except.ok more => Except.ok (rows ++ more)
  | Except.ok _, Except.error e => Except.error e

/-- The main loop of fetch_scoring_v3.py: no try block around fetch_year. -/
def v3RunYears {α : Type} (results : List (Except String (List α))) :
    Except String (List α) :=
  results.foldl v3Step (Except.ok [])

/-! ## merge_to_single_db.py (claim C5) -/

/-- A source SQLite database: its path and its tables with their rows. -/
structure SrcDb where
  path : String
  tables : List (String × List (List String))
deriving DecidableEq

/-- gather_tables from merge_to_single_db.py: the table names of one
database. -/
def gather_tables (db : SrcDb) : List String := db.tables.map Prod.fst

/-- Every table name of every source database, with multiplicity, in scan
order. The table_map of main records, for each name, one entry per
occurrence. -/
def allTableNames (srcs : List SrcDb) : List String :=
  (srcs.map gather_tables).flatten

/-- The duplicate check of main: some name collected more than once. -/
def hasDupTables (srcs : List SrcDb) : Bool :=
  (allTableNames srcs).any (fun t => 1 < (allTableNames srcs).count t)

/-- main of merge_to_single_db.py over a given scan result and a possibly
pre-existing output database: no sources is a no-op with exit code 0;
duplicate table names abort with exit code 2 before the output is touched;
otherwise the output file is rebuilt and receives every table of every
source under its original name, in scan order. The result is the exit code
paired with the final output state. -/
def mergeMain (srcs : List SrcDb)
    (existingOut : Option (List (String × List (List String)))) :
    Nat × Option (List (String × List (List String))) :=
  if srcs.isEmpty then (0, existingOut)
  else if hasDupTables srcs then (2, existingOut)
  else (0, some ((srcs.map (fun db => db.tables)).flatten))

/-! ## record_game_results.py scrape_season and scrape_years (claim C9) -/

/-- One game-result row assembled by scrape_season. -/
structure GameRow where
  date : String
  opponent : String
  site : String
  result : String
  score : String
  duration : String
  attendance : String
deriving DecidableEq

/-- The dedupe loop shared by scrape_season and scrape_years: keep a row
when its key is unseen, remembering each key. -/
def dedupeByKey {κ : Type} [DecidableEq κ] (key : GameRow → κ) :
    List GameRow → List κ → List GameRow
  | [], _ => []
  | r :: rs, seen =>
    if key r ∈ seen then dedupeByKey key rs seen
    else r :: dedupeByKey key rs (key r :: seen)

/-- The sort order of both loops: the ISO date string compared
lexicographically, as Python compares str. -/
def dateOrd (a b : GameRow) : Prop := a.date ≤ b.date

instance : DecidableRel dateOrd := fun a b =>
  inferInstanceAs (Decidable (a.date ≤ b.date))

instance : IsTotal GameRow dateOrd := ⟨fun a b => le_total a.date b.date⟩

instance : IsTrans GameRow dateOrd := ⟨fun _ _ _ h1 h2 => le_trans h1 h2⟩

/-- The dedupe key of scrape_season. -/
def seasonKey (r : GameRow) : String × String := (r.date, r.opponent)

/-- The dedupe key of scrape_years. -/
def yearsKey (r : GameRow) : String × String × String :=
  (r.date, r.opponent, r.score)

/-- The final dedupe and sort of scrape_season applied to the candidate rows
scraped from the page; a stable insertion sort by date models the stable
Python list.sort with a date key. -/
def scrapeSeasonPost (rows : List GameRow) : List GameRow :=
  List.insertionSort dateOrd (dedupeByKey seasonKey rows [])

/-- scrape_years: concatenate the rows of the years that did not fail, then
dedupe on the date, opponent, score triple and sort by date. -/
def scrapeYearsPost (results : List (Except String (List GameRow))) :
    List GameRow :=
  List.insertionSort dateOrd (dedupeByKey yearsKey (okRows results) [])

/-! ## Script manifests (claims C4, C7, C8) -/

/-- Kinds of data file a script writes. -/
inductive PersistKind where
  | csv
  | json
  | sqlite
deriving DecidableEq

/-- One script with the kinds of output file its code writes. -/
structure ScriptPersist where
  name : String
  writes : List PersistKind
deriving DecidableEq

/-- The sixteen scripts of the repository and every persistence call each
one makes: to_csv and csv.writer count as csv, to_json as json, sqlite3
with to_sql as sqlite. -/
def repoScripts : List ScriptPersist :=
  [⟨"scripts/fetch_scoring.py", [PersistKind.csv]⟩,
   ⟨"scripts/fetch_scoring_v3.py", [PersistKind.csv]⟩,
   ⟨"scripts/clean_scoring.py", [PersistKind.csv]⟩,
   ⟨"scripts/fetch_receiving.py", [PersistKind.csv]⟩,
   ⟨"scripts/fetch_defense.py", [PersistKind.csv]⟩,
   ⟨"scripts/fetch_field_goals.py", [PersistKind.csv]⟩,
   ⟨"scripts/fetch_punting.py", [PersistKind.csv]⟩,
   ⟨"scripts/fetch_kickoffs.py", [PersistKind.csv]⟩,
   ⟨"scripts/fetch_kickoff_returns.py", [PersistKind.csv]⟩,
   ⟨"scripts/fix_rushing_td.py", [PersistKind.csv]⟩,
   ⟨"scripts/record_game_results.py", [PersistKind.csv]⟩,
   ⟨"scripts/game_by_game_defense.py", [PersistKind.csv]⟩,
   ⟨"scripts/xlsx_to_sqlite.py", [PersistKind.sqlite]⟩,
   ⟨"scripts/merge_to_single_db.py", [PersistKind.sqlite]⟩,
   ⟨"Season_stats/Individual/Offense/Passing/passing records.py",
     [PersistKind.csv, PersistKind.json]⟩,
   ⟨"Season_stats/Individual/Offense/Rushing/all_time_season_rushing.py",
     [PersistKind.csv, PersistKind.json]⟩]

/-- The scripts that persist SQLite databases. -/
def sqliteScripts : List String :=
  (repoScripts.filter (fun s => s.writes.contains PersistKind.sqlite)).map
    ScriptPersist.name

/-- The Python modules each script imports, transcribed from its import
statements (playwright is imported inside a function in two scripts). -/
def scriptImports : List (String × List String) :=
  [("scripts/fetch_scoring.py", ["time", "requests", "bs4", "pandas", "pathlib"]),
   ("scripts/fetch_scoring_v3.py", ["requests", "pandas", "re", "pathlib", "io"]),
   ("scripts/clean_scoring.py", ["re", "pandas", "pathlib"]),
   ("scripts/fetch_receiving.py", ["os", "time", "requests", "pandas", "bs4"]),
   ("scripts/fetch_defense.py",
     ["logging", "os", "re", "time", "pathlib", "pandas", "playwright"]),
   ("scripts/fetch_field_goals.py", ["os", "time", "requests", "pandas", "bs4"]),
   ("scripts/fetch_punting.py", ["os", "time", "requests", "pandas", "bs4"]),
   ("scripts/fetch_kickoffs.py", ["os", "time", "requests", "pandas", "bs4"]),
   ("scripts/fetch_kickoff_returns.py", ["os", "time", "requests", "pandas", "bs4"]),
   ("scripts/fix_rushing_td.py",
     ["requests", "pandas", "io", "re", "bs4", "playwright"]),
   ("scripts/record_game_results.py",
     ["argparse", "csv", "os", "re", "sys", "datetime", "time", "requests", "bs4"]),
   ("scripts/game_by_game_defense.py",
     ["argparse", "csv", "os", "re", "sys", "time", "requests", "bs4"]),
   ("scripts/xlsx_to_sqlite.py", ["re", "pathlib", "sqlite3", "sys", "pandas"]),
   ("scripts/merge_to_single_db.py", ["pathlib", "sqlite3", "sys", "pandas"]),
   ("Season_stats/Individual/Offense/Passing/passing records.py",
     ["argparse", "sys", "re", "requests", "pandas", "bs4", "typing", "pathlib"]),
   ("Season_stats/Individual/Offense/Rushing/all_time_season_rushing.py",
     ["argparse", "sys", "re", "requests", "pandas", "bs4", "typing", "pathlib"])]

/-- The module names of the repository scripts themselves. -/
def repoModuleNames : List String :=
  ["fetch_scoring", "fetch_scoring_v3", "clean_scoring", "fetch_receiving",
   "fetch_defense", "fetch_field_goals", "fetch_punting", "fetch_kickoffs",
   "fetch_kickoff_returns", "fix_rushing_td", "record_game_results",
   "game_by_game_defense", "xlsx_to_sqlite", "merge_to_single_db",
   "passing records", "all_time_season_rushing"]

/-- Does s start with p? -/
def strStarts (p s : String) : Bool := startsSeq p.toList s.toList

/-- Does s end with p? -/
def strEnds (p s : String) : Bool := startsSeq p.toList.reverse s.toList.reverse

/-- The database file xlsx_to_sqlite.py writes next to an Excel file with
the given stem directly under the Excel and DB Files directory: the Excel
path with its suffix replaced by .db. -/
def xlsxDbOutput (stem : String) : String :=
  "Excel and DB Files/" ++ stem ++ ".db"

/-- Does merge_to_single_db.py read the file at this path? It scans every
.db file under Excel and DB Files except its own output. -/
def mergeReadsFile (p : String) : Bool :=
  strStarts "Excel and DB Files/" p && strEnds ".db" p &&
  !(p = "Excel and DB Files/DB files/all_tables.db")

/-- Is the path a CSV file? -/
def isCsvPath (p : String) : Bool := strEnds ".csv" p

/-- The single stats page of the athletics site. -/
def statsBase : String := "https://hurstathletics.com/sports/football/stats"

/-- The per-season stats page. -/
def yearUrl (y : Nat) : String := statsBase ++ "/" ++ toString y

/-- The default year range 2012 to 2025 shared by the scripts. -/
def defaultYears : List Nat := List.range' 2012 14

/-- The URLs each script can request under default command-line arguments,
transcribed from its constants: the per-year fetchers request the season
page of each default year (fetch_scoring and fetch_scoring_v3 fall back to
the bare stats page when a request fails), the single-page scrapers request
the 2025 season page, and the converters issue no request. -/
def scriptRequestUrls : List (String × List String) :=
  [("scripts/fetch_scoring.py", defaultYears.flatMap (fun y => [yearUrl y, statsBase])),
   ("scripts/fetch_scoring_v3.py", defaultYears.flatMap (fun y => [yearUrl y, statsBase])),
   ("scripts/clean_scoring.py", []),
   ("scripts/fetch_receiving.py", defaultYears.map yearUrl),
   ("scripts/fetch_defense.py", defaultYears.map yearUrl),
   ("scripts/fetch_field_goals.py", defaultYears.map yearUrl),
   ("scripts/fetch_punting.py", defaultYears.map yearUrl),
   ("scripts/fetch_kickoffs.py", defaultYears.map yearUrl),
   ("scripts/fetch_kickoff_returns.py", defaultYears.map yearUrl),
   ("scripts/fix_rushing_td.py", defaultYears.map yearUrl),
   ("scripts/record_game_results.py", defaultYears.map yearUrl),
   ("scripts/game_by_game_defense.py", defaultYears.map yearUrl),
   ("scripts/xlsx_to_sqlite.py", []),
   ("scripts/merge_to_single_db.py", []),
   ("Season_stats/Individual/Offense/Passing/passing records.py", [yearUrl 2025]),
   ("Season_stats/Individual/Offense/Rushing/all_time_season_rushing.py", [yearUrl 2025])]

/-- Does the URL target the stats page, optionally with a season suffix from
the default range? -/
def goodStatsUrl (u : String) : Bool :=
  u == statsBase || defaultYears.any (fun y => u == yearUrl y)

/-- A family of data-file paths a script reads or writes: one fixed path, a
per-year path (one per default season), or every path with a given suffix
under a directory (optionally excluding one path). -/
inductive PathPat where
  | exact (p : String)
  | yearly (pre suf : String)
  | anyUnder (dir suf : String)
  | anyUnderExcept (dir suf excl : String)
deriving DecidableEq

/-- Does the concrete path p belong to the pattern? -/
def matchesPat : PathPat → String → Bool
  | PathPat.exact q, p => p == q
  | PathPat.yearly pre suf, p =>
    defaultYears.any (fun y => p == pre ++ toString y ++ suf)
  | PathPat.anyUnder dir suf, p => strStarts dir p && strEnds suf p
  | PathPat.anyUnderExcept dir suf excl, p =>
    strStarts dir p && strEnds suf p && !(p == excl)

/-- Is every path of the pattern a CSV file? -/
def patIsCsv : PathPat → Bool
  | PathPat.exact q => isCsvPath q
  | PathPat.yearly _ suf => suf == ".csv"
  | PathPat.anyUnder _ suf => suf == ".csv"
  | PathPat.anyUnderExcept _ suf _ => suf == ".csv"

/-- The master scoring CSV shared by fetch_scoring.py, fetch_scoring_v3.py
and clean_scoring.py. -/
def scoringCsvPath : String :=
  "/workspaces/Football-Internship/Season Stats/Offense/all_mercyhurst_scoring.csv"

/-- One script with the data files its code reads and writes. -/
structure ScriptFiles where
  name : String
  reads : List PathPat
  writes : List PathPat
deriving DecidableEq

/-- The data files each script reads and writes, transcribed from its
constants and open or to_csv or read_csv or sqlite3 calls. fetch_scoring
re-reads its own output for the Name post-process; fix_rushing_td reads the
per-year rushing CSVs that all_time_season_rushing produces when run with
the output option mercyhurst_rushing_{year}.csv; xlsx_to_sqlite writes a
database next to every Excel file under Excel and DB Files and
merge_to_single_db scans every database there except its own output. The
append-to master CSV of the two argparse scrapers takes a user-chosen path
outside the default invocation and is read and written only by its own
script, so it adds no cross-script exchange. -/
def scriptFileIO : List ScriptFiles :=
  [⟨"scripts/fetch_scoring.py", [PathPat.exact scoringCsvPath],
     [PathPat.exact scoringCsvPath]⟩,
   ⟨"scripts/fetch_scoring_v3.py", [], [PathPat.exact scoringCsvPath]⟩,
   ⟨"scripts/clean_scoring.py", [PathPat.exact scoringCsvPath],
     [PathPat.exact scoringCsvPath]⟩,
   ⟨"scripts/fetch_receiving.py", [],
     [PathPat.exact "Season Stats/Offense/Receiving/all_mercyhurst_receiving.csv"]⟩,
   ⟨"scripts/fetch_defense.py", [],
     [PathPat.exact "Season Stats/Defense/all_mercyhurst_defense.csv"]⟩,
   ⟨"scripts/fetch_field_goals.py", [],
     [PathPat.exact "Season Stats/Special Teams/all_mercyhurst_field_goals.csv"]⟩,
   ⟨"scripts/fetch_punting.py", [],
     [PathPat.exact "Season Stats/Special Teams/all_mercyhurst_punting.csv"]⟩,
   ⟨"scripts/fetch_kickoffs.py", [],
     [PathPat.exact "Season Stats/Special Teams/all_mercyhurst_kickoffs.csv"]⟩,
   ⟨"scripts/fetch_kickoff_returns.py", [],
     [PathPat.exact "Season Stats/Individual/Special Teams/mercyhurst_kickoff_return.csv"]⟩,
   ⟨"scripts/fix_rushing_td.py",
     [PathPat.yearly "mercyhurst_rushing_" ".csv"],
     [PathPat.exact "all_mercyhurst_rushing.csv"]⟩,
   ⟨"scripts/record_game_results.py", [],
     [PathPat.exact "Season Stats/Individual/game_results.csv",
      PathPat.yearly "Season Stats/Team/team_game_stats_" ".csv",
      PathPat.exact "Season Stats/Team/game_offense.csv"]⟩,
   ⟨"scripts/game_by_game_defense.py", [],
     [PathPat.exact "Season Stats/Team/game_defense.csv"]⟩,
   ⟨"scripts/xlsx_to_sqlite.py",
     [PathPat.anyUnder "Excel and DB Files/" ".xlsx"],
     [PathPat.anyUnder "Excel and DB Files/" ".db"]⟩,
   ⟨"scripts/merge_to_single_db.py",
     [PathPat.anyUnderExcept "Excel and DB Files/" ".db"
       "Excel and DB Files/DB files/all_tables.db"],
     [PathPat.exact "Excel and DB Files/DB files/all_tables.db"]⟩,
   ⟨"Season_stats/Individual/Offense/Passing/passing records.py", [],
     [PathPat.exact "mercyhurst_passing_2025.csv"]⟩,
   ⟨"Season_stats/Individual/Offense/Rushing/all_time_season_rushing.py", [],
     [PathPat.exact "mercyhurst_rushing_2025.csv",
      PathPat.yearly "mercyhurst_rushing_" ".csv"]⟩]

/-- Call sites in each script that launch or execute another program at
runtime (subprocess, os.system, exec or import of a sibling script): none
exist anywhere. The playwright calls of fetch_defense.py and
fix_rushing_td.py launch a headless browser, not a repository script. -/
def scriptInvocations : List (String × List String) :=
  [("scripts/fetch_scoring.py", []),
   ("scripts/fetch_scoring_v3.py", []),
   ("scripts/clean_scoring.py", []),
   ("scripts/fetch_receiving.py", []),
   ("scripts/fetch_defense.py", []),
   ("scripts/fetch_field_goals.py", []),
   ("scripts/fetch_punting.py", []),
   ("scripts/fetch_kickoffs.py", []),
   ("scripts/fetch_kickoff_returns.py", []),
   ("scripts/fix_rushing_td.py", []),
   ("scripts/record_game_results.py", []),
   ("scripts/game_by_game_defense.py", []),
   ("scripts/xlsx_to_sqlite.py", []),
   ("scripts/merge_to_single_db.py", []),
   ("Season_stats/Individual/Offense/Passing/passing records.py", []),
   ("Season_stats/Individual/Offense/Rushing/all_time_season_rushing.py", [])]

/-! ## Theorems: helper lemmas for strip and the duplicate search -/

theorem dropWhile_dropWhile (p : Char → Bool) (l : List Char) :
    (l.dropWhile p).dropWhile p = l.dropWhile p := by
  induction l with
  | nil => rfl
  | cons a l ih =>
    by_cases h : p a <;> simp [List.dropWhile_cons, h, ih]

theorem head_false_of_dropWhile_self (p : Char → Bool) (a : Char) (l : List Char)
    (h : (a :: l).dropWhile p = a :: l) : p a = false := by
  by_cases hp : p a
  · exfalso
    rw [List.dropWhile_cons, if_pos hp] at h
    have hlen := congrArg List.length h
    have hle := (List.dropWhile_sublist p (l := l)).length_le
    simp only [List.length_cons] at hlen
    omega
  · simpa using hp

theorem dropWhile_self_take (p : Char → Bool) (l : List Char) (n : Nat)
    (h : l.dropWhile p = l) : (l.take n).dropWhile p = l.take n := by
  cases l with
  | nil => simp
  | cons a l =>
    have hpa := head_false_of_dropWhile_self p a l h
    cases n with
    | zero => rfl
    | succ n => simp [List.dropWhile_cons, hpa]

theorem dropWhile_self_of_take (p : Char → Bool) (l u : List Char) (n : Nat)
    (hu : u = l.take n) (h : l.dropWhile p = l) : u.dropWhile p = u := by
  subst hu; exact dropWhile_self_take p l n h

theorem dropTrail_take_form (s : List Char) : ∃ k, dropTrail s = s.take k := by
  have hsub : s.reverse.dropWhile isPySpace <:+ s.reverse := List.dropWhile_suffix _
  have hpre : (s.reverse.dropWhile isPySpace).reverse <+: s := by
    have h2 := (@List.reverse_prefix Char (s.reverse.dropWhile isPySpace) s.reverse).mpr hsub
    simpa using h2
  exact ⟨(s.reverse.dropWhile isPySpace).reverse.length,
    List.prefix_iff_eq_take.mp hpre⟩

theorem pyStrip_take_form (s : List Char) : ∃ k, pyStrip s = (s.dropWhile isPySpace).take k :=
  dropTrail_take_form _

theorem pyStrip_lead (s : List Char) : (pyStrip s).dropWhile isPySpace = pyStrip s := by
  obtain ⟨k, hk⟩ := pyStrip_take_form s
  exact dropWhile_self_of_take isPySpace (s.dropWhile isPySpace) _ k hk
    (dropWhile_dropWhile isPySpace s)

theorem dropTrail_dropTrail (s : List Char) : dropTrail (dropTrail s) = dropTrail s := by
  unfold dropTrail
  rw [List.reverse_reverse, dropWhile_dropWhile]

theorem pyStrip_idem (s : List Char) : pyStrip (pyStrip s) = pyStrip s := by
  show dropTrail ((pyStrip s).dropWhile isPySpace) = pyStrip s
  rw [pyStrip_lead]
  show dropTrail (dropTrail (s.dropWhile isPySpace)) = pyStrip s
  rw [dropTrail_dropTrail]
  rfl

theorem mem_of_mem_dropTrail (s : List Char) (c : Char) (h : c ∈ dropTrail s) : c ∈ s := by
  obtain ⟨k, hk⟩ := dropTrail_take_form s
  rw [hk] at h
  exact List.mem_of_mem_take h

theorem mem_of_mem_pyStrip (s : List Char) (c : Char) (h : c ∈ pyStrip s) : c ∈ s := by
  have h1 := mem_of_mem_dropTrail (s.dropWhile isPySpace) c h
  exact (List.dropWhile_sublist isPySpace).subset h1

theorem findDupFrom_some (s : List Char) (i fuel n : Nat)
    (h : findDupFrom s i fuel = some n) :
    dupAt s n = true ∧ i ≤ n ∧ n < i + fuel ∧
      ∀ k, i ≤ k → k < n → dupAt s k = false := by
  induction fuel generalizing i with
  | zero => simp [findDupFrom] at h
  | succ fuel ih =>
    rw [findDupFrom] at h
    cases hd : dupAt s i with
    | true =>
      rw [if_pos hd] at h
      cases h
      refine ⟨hd, Nat.le_refl _, by omega, fun k hk1 hk2 => ?_⟩
      exact absurd (Nat.lt_of_le_of_lt hk1 hk2) (Nat.lt_irrefl _)
    | false =>
      rw [if_neg (by simp [hd])] at h
      obtain ⟨h1, h2, h3, h4⟩ := ih (i + 1) h
      refine ⟨h1, by omega, by omega, fun k hk1 hk2 => ?_⟩
      by_cases hik : k = i
      · exact hik ▸ hd
      · exact h4 k (by omega) hk2

theorem firstDup_some (s : List Char) (n : Nat) (h : firstDup s = some n) :
    dupAt s n = true ∧ 3 ≤ n ∧ n ≤ s.length / 2 ∧
      ∀ k, 3 ≤ k → k < n → dupAt s k = false := by
  obtain ⟨h1, h2, h3, h4⟩ := findDupFrom_some s 3 (s.length / 2 + 1 - 3) n h
  exact ⟨h1, h2, by omega, h4⟩

theorem dupAt_of_take (s : List Char) (r m : Nat)
    (hm : 2 * m ≤ (s.take r).length) (hd : dupAt (s.take r) m = true) :
    dupAt s m = true := by
  unfold dupAt at hd ⊢
  have hlen : (s.take r).length = min r s.length := List.length_take r s
  have hmr : m ≤ r := by omega
  have h1 : (s.take r).take m = s.take m := by
    rw [List.take_take]
    congr 1
    omega
  have h2 : ((s.take r).drop m).take m = (s.drop m).take m := by
    rw [List.drop_take]
    rw [List.take_take]
    congr 1
    omega
  rw [h1, h2] at hd
  exact hd

theorem dupAt_of_pre (s t : List Char) (m : Nat) (ht : t <+: s)
    (hm : 2 * m ≤ t.length) (hd : dupAt t m = true) : dupAt s m = true := by
  have hts : t = s.take t.length := List.prefix_iff_eq_take.mp ht
  rw [hts] at hd hm
  exact dupAt_of_take s t.length m hm hd

/-! ## Theorems for claim C10 -/

theorem collapse_dup_eq_some (s : List Char) (n : Nat)
    (h : firstDup (pyStrip s) = some n) :
    collapse_dup s = pyStrip (((pyStrip s).drop n).take n) := by
  unfold collapse_dup
  rw [h]

theorem collapse_dup_eq_none (s : List Char) (h : firstDup (pyStrip s) = none) :
    collapse_dup s = pyStrip s := by
  unfold collapse_dup
  rw [h]

theorem pyStrip_take_of_stripped (s : List Char) (n : Nat) :
    ∃ k, k ≤ n ∧ pyStrip ((pyStrip s).take n) = ((pyStrip s).take n).take k := by
  have hlead : ((pyStrip s).take n).dropWhile isPySpace = (pyStrip s).take n :=
    dropWhile_self_take isPySpace (pyStrip s) n (pyStrip_lead s)
  obtain ⟨k, hk⟩ := dropTrail_take_form ((pyStrip s).take n)
  refine ⟨min k n, by omega, ?_⟩
  show dropTrail (((pyStrip s).take n).dropWhile isPySpace) = _
  rw [hlead, hk, List.take_take, List.take_take]
  congr 1
  omega

theorem collapse_output_take (s : List Char) :
    ∃ k, collapse_dup s = (pyStrip s).take k := by
  cases h : firstDup (pyStrip s) with
  | none => exact ⟨(pyStrip s).length, by rw [collapse_dup_eq_none s h]; simp⟩
  | some n =>
    obtain ⟨hd, h3, hn2, hmin⟩ := firstDup_some _ n h
    have heq : ((pyStrip s).drop n).take n = (pyStrip s).take n := by
      unfold dupAt at hd
      exact (of_decide_eq_true hd).symm
    rw [collapse_dup_eq_some s n h, heq]
    obtain ⟨k, _, hk⟩ := pyStrip_take_of_stripped s n
    rw [hk, List.take_take]
    exact ⟨min k n, rfl⟩

theorem collapse_dup_no_more (s : List Char) : firstDup (collapse_dup s) = none := by
  cases hfd : firstDup (pyStrip s) with
  | none =>
    rw [collapse_dup_eq_none s hfd, hfd]
  | some n =>
    obtain ⟨hd, h3, hn2, hmin⟩ := firstDup_some _ n hfd
    obtain ⟨k, hk⟩ := collapse_output_take s
    cases hm : firstDup (collapse_dup s) with
    | none => rfl
    | some m =>
      exfalso
      obtain ⟨hdm, hm3, hm2, _⟩ := firstDup_some _ m hm
      have hpre : collapse_dup s <+: pyStrip s := by
        rw [hk]; exact List.take_prefix k (pyStrip s)
      have hdup : dupAt (pyStrip s) m = true :=
        dupAt_of_pre (pyStrip s) (collapse_dup s) m hpre (by omega) hdm
      have hlen : (collapse_dup s).length ≤ n := by
        have heq : collapse_dup s = pyStrip ((pyStrip s).take n) := by
          rw [collapse_dup_eq_some s n hfd]
          congr 1
          unfold dupAt at hd
          exact (of_decide_eq_true hd).symm
        obtain ⟨k2, hk2n, hk2⟩ := pyStrip_take_of_stripped s n
        rw [heq, hk2]
        simp only [List.length_take, List.take_take]
        omega
      have hmn : m < n := by omega
      exact absurd (hmin m hm3 hmn) (by simp [hdup])

theorem pyStrip_collapse_dup (s : List Char) :
    pyStrip (collapse_dup s) = collapse_dup s := by
  cases h : firstDup (pyStrip s) with
  | none => rw [collapse_dup_eq_none s h]; exact pyStrip_idem s
  | some n => rw [collapse_dup_eq_some s n h]; exact pyStrip_idem _

/-- Claim C10: on digit-free input the clean_scoring collapse and the
fetch_scoring collapse agree; the search finds the smallest duplicated block
of size at least 3; and the collapse operation is idempotent (for the
clean_scoring version, on digit-free input). -/
theorem C10_collapse_equiv_idem :
    (∀ s : List Char, (∀ c ∈ s, c.isDigit = false) →
        collapse_dup_name s = collapse_dup s) ∧
    (∀ s n, firstDup s = some n →
        dupAt s n = true ∧ 3 ≤ n ∧ ∀ k, 3 ≤ k → k < n → dupAt s k = false) ∧
    (∀ s : List Char, collapse_dup (collapse_dup s) = collapse_dup s) ∧
    (∀ s : List Char, (∀ c ∈ s, c.isDigit = false) →
        collapse_dup_name (collapse_dup_name s) = collapse_dup_name s) := by
  have hfilter : ∀ s : List Char, (∀ c ∈ s, c.isDigit = false) →
      (pyStrip s).filter (fun c => !c.isDigit) = pyStrip s := by
    intro s h
    apply List.filter_eq_self.mpr
    intro a ha
    simp [h a (mem_of_mem_pyStrip s a ha)]
  have hequiv : ∀ s : List Char, (∀ c ∈ s, c.isDigit = false) →
      collapse_dup_name s = collapse_dup s := by
    intro s h
    unfold collapse_dup_name collapse_dup
    rw [hfilter s h]
    cases hfd : firstDup (pyStrip s) with
    | none => rfl
    | some n =>
      obtain ⟨hd, _, _, _⟩ := firstDup_some _ n hfd
      unfold dupAt at hd
      show pyStrip ((pyStrip s).take n) = pyStrip (((pyStrip s).drop n).take n)
      rw [of_decide_eq_true hd]
  have hidem : ∀ s : List Char, collapse_dup (collapse_dup s) = collapse_dup s := by
    intro s
    have h1 : pyStrip (collapse_dup s) = collapse_dup s := pyStrip_collapse_dup s
    have h2 : firstDup (pyStrip (collapse_dup s)) = none := by
      rw [h1]; exact collapse_dup_no_more s
    rw [collapse_dup_eq_none _ h2, h1]
  refine ⟨hequiv, ?_, hidem, ?_⟩
  · intro s n h
    obtain ⟨h1, h2, _, h4⟩ := firstDup_some s n h
    exact ⟨h1, h2, h4⟩
  · intro s h
    have hout : ∀ c ∈ collapse_dup s, c.isDigit = false := by
      intro c hc
      obtain ⟨k, hk⟩ := collapse_output_take s
      rw [hk] at hc
      exact h c (mem_of_mem_pyStrip s c (List.mem_of_mem_take hc))
    rw [hequiv s h, hequiv _ hout, hidem]

/-- Witness for C10 at concrete inputs. -/
theorem C10_collapse_witness :
    collapse_dup_name ("abcabc x".toList) = collapse_dup ("abcabc x".toList) ∧
    collapse_dup_name (collapse_dup_name ("abcabc x".toList)) =
      collapse_dup_name ("abcabc x".toList) ∧
    (dupAt ("xyzxyz".toList) 3 = true ∧ 3 ≤ 3 ∧
      ∀ k, 3 ≤ k → k < 3 → dupAt ("xyzxyz".toList) k = false) :=
  ⟨C10_collapse_equiv_idem.1 _ (by decide),
   C10_collapse_equiv_idem.2.2.2 _ (by decide),
   C10_collapse_equiv_idem.2.1 _ 3 (by decide)⟩

/-! ## Theorems: character classes and normalization agreement -/

theorem char_isUpper_eq (c : Char) :
    c.isUpper = (decide (65 ≤ c.toNat) && decide (c.toNat ≤ 90)) := by
  simp [Char.isUpper, Char.toNat, UInt32.le_def, BitVec.le_def]
  rfl

theorem char_isLower_eq (c : Char) :
    c.isLower = (decide (97 ≤ c.toNat) && decide (c.toNat ≤ 122)) := by
  simp [Char.isLower, Char.toNat, UInt32.le_def, BitVec.le_def]
  rfl

theorem char_isDigit_eq (c : Char) :
    c.isDigit = (decide (48 ≤ c.toNat) && decide (c.toNat ≤ 57)) := by
  simp [Char.isDigit, Char.toNat, UInt32.le_def, BitVec.le_def]
  rfl

theorem toNat_toUpper_of_lower (c : Char) (h : 97 ≤ c.toNat ∧ c.toNat ≤ 122) :
    c.toUpper.toNat = c.toNat - 32 := by
  simp only [Char.toUpper, h, if_pos]
  have hv : (c.toNat - 32).isValidChar := by
    unfold Nat.isValidChar
    omega
  rw [Char.ofNat, dif_pos hv]
  rfl

theorem toUpper_eq_self (c : Char) (h : ¬(97 ≤ c.toNat ∧ c.toNat ≤ 122)) :
    c.toUpper = c := by
  simp [Char.toUpper, h]

theorem isLower_toUpper (c : Char) : c.toUpper.isLower = false := by
  by_cases h : 97 ≤ c.toNat ∧ c.toNat ≤ 122
  · have ht := toNat_toUpper_of_lower c h
    rw [char_isLower_eq, ht]
    rw [Bool.and_eq_false_iff]
    left
    simp only [decide_eq_false_iff_not]
    omega
  · rw [toUpper_eq_self c h, char_isLower_eq]
    rw [Bool.and_eq_false_iff]
    by_cases h1 : 97 ≤ c.toNat
    · right
      simp only [decide_eq_false_iff_not]
      omega
    · left
      simp only [decide_eq_false_iff_not]
      omega

theorem isAlphanum_toUpper (c : Char) : c.toUpper.isAlphanum = c.isAlphanum := by
  rw [Bool.eq_iff_iff]
  by_cases h : 97 ≤ c.toNat ∧ c.toNat ≤ 122
  · have ht := toNat_toUpper_of_lower c h
    simp only [Char.isAlphanum, Char.isAlpha, char_isUpper_eq, char_isLower_eq,
      char_isDigit_eq, ht, Bool.or_eq_true, Bool.and_eq_true, decide_eq_true_eq]
    omega
  · rw [toUpper_eq_self c h]

theorem upperDigit_eq_isAlphanum_toUpper (c : Char) :
    (c.toUpper.isUpper || c.toUpper.isDigit) = c.toUpper.isAlphanum := by
  simp only [Char.isAlphanum, Char.isAlpha, isLower_toUpper, Bool.or_false]

theorem normScoring_eq_specNorm (s : String) : normScoring s = specNorm s := by
  unfold normScoring specNorm
  rw [List.filter_map Char.toUpper s.toList]
  congr 1
  apply List.filter_congr
  intro x _
  exact (isAlphanum_toUpper x).symm

theorem normV3_eq_specNorm (s : String) : normV3 s = specNorm s := by
  unfold normV3 specNorm
  apply List.filter_congr
  intro x hx
  obtain ⟨c, _, rfl⟩ := List.mem_map.mp hx
  exact upperDigit_eq_isAlphanum_toUpper c

theorem lookup_map_key {β : Type} (keys : List String) (f : String → β) (k : String)
    (hk : k ∈ keys) (tail : List (String × β)) :
    (keys.map (fun c => (c, f c)) ++ tail).lookup k = some (f k) := by
  induction keys with
  | nil => cases hk
  | cons c keys ih =>
    simp only [List.map_cons, List.cons_append]
    by_cases hkc : k = c
    · subst hkc
      simp [List.lookup]
    · have hb : (k == c) = false := by simp [hkc]
      simp only [List.lookup, hb]
      have hk2 : k ∈ keys := by
        cases List.mem_cons.mp hk with
        | inl h => exact absurd h hkc
        | inr h => exact h
      exact ih hk2

theorem lookup_map_key_not_mem {β : Type} (keys : List String) (f : String → β)
    (k : String) (hk : ¬ k ∈ keys) (tail : List (String × β)) :
    (keys.map (fun c => (c, f c)) ++ tail).lookup k = tail.lookup k := by
  induction keys with
  | nil => rfl
  | cons c cs ih =>
    have hc : ¬ k = c := fun h => hk (h ▸ List.mem_cons_self c cs)
    have hb : (k == c) = false := by simp [hc]
    simp only [List.map_cons, List.cons_append, List.lookup, hb]
    exact ih (fun h => hk (List.mem_cons_of_mem c h))

theorem lookup_map_key_self {β : Type} (keys : List String) (f : String → β)
    (k : String) (hk : k ∈ keys) :
    (keys.map (fun c => (c, f c))).lookup k = some (f k) := by
  have h := lookup_map_key keys f k hk []
  simpa using h

theorem pyDelete_nil (pat : List Char) : pyDelete [] pat = [] := by
  unfold pyDelete
  rfl

theorem collapse_dup_nil : collapse_dup [] = [] := rfl

theorem scoringCleanName_empty (jersey : String) :
    scoringCleanName "" jersey = [] := by
  unfold scoringCleanName
  have h : (if jersey.toList.isEmpty then ("" : String).toList
      else pyDelete ("" : String).toList jersey.toList) = [] := by
    cases hj : jersey.toList.isEmpty
    · rw [if_neg (by simp [hj])]
      exact pyDelete_nil _
    · rw [if_pos (by simp [hj])]
      rfl
  rw [h]
  rfl

/-! ## Theorems for claim C1 -/

/-- Claim C1 counterexample: with headers # and TD and wanted column TD, the
claim rule maps TD to the first header (its normalized form, the empty
string, is a substring of TD), but fetch_scoring_v3 skips headers whose
normalized form is empty and maps TD to the second header. -/
theorem C1_header_match_counterexample :
    specFirstMatch "TD" ["#", "TD"] = some 0 ∧
    v3FindMatch "TD" ["#", "TD"] = some 1 ∧
    ¬ v3FindMatch "TD" ["#", "TD"] = specFirstMatch "TD" ["#", "TD"] := by
  refine ⟨?_, ?_, ?_⟩ <;> decide

/-- Claim C1 amended: fetch_scoring follows the claim rule exactly;
fetch_scoring_v3 follows it after skipping headers whose normalized form is
empty; fetch_defense uses its own normalization (uppercase, en dash to
hyphen, only whitespace and dots removed) with the same fuzzy rule and,
for columns other than # and Name, returns no index when that loop fails;
and in parse_table a wanted column with no matching header yields the empty
string in every output row. -/
theorem C1_header_match_amended :
    (∀ w hs, scoringFindIdx w hs = specFirstMatch w hs) ∧
    (∀ w hs, v3FindMatch w hs = specFirstMatchNE w hs) ∧
    (∀ w hs, ¬ w = "#" → ¬ w = "Name" →
        find_idx hs w =
          (hs.map defNormHeader).findIdx? (fun hn => matchRel (defNormTarget w) hn)) ∧
    (∀ w hs cells y, w ∈ WANT_COLS → scoringFindIdx w hs = none →
        (scoringParseRow hs cells y).lookup w = some "") := by
  refine ⟨?_, ?_, ?_, ?_⟩
  · intro w hs
    unfold scoringFindIdx specFirstMatch
    rw [funext normScoring_eq_specNorm]
  · intro w hs
    unfold v3FindMatch specFirstMatchNE
    rw [funext normV3_eq_specNorm]
  · intro w hs hw1 hw2
    unfold find_idx
    cases hfi : (hs.map defNormHeader).findIdx?
        (fun hn => matchRel (defNormTarget w) hn) with
    | some i => rfl
    | none => simp [hw1, hw2]
  · intro w hs cells y hw hnone
    unfold scoringParseRow
    rw [lookup_map_key WANT_COLS _ w hw]
    congr 1
    by_cases hname : w = "Name"
    · subst hname
      rw [if_pos rfl, hnone]
      show String.mk (scoringCleanName "" _) = ""
      rw [scoringCleanName_empty]
    · rw [if_neg hname, hnone]
      rfl

/-- Witness for the C1 amended theorem at concrete inputs. -/
theorem C1_header_match_witness :
    find_idx ["SOLO", "GP"] "GP" =
      ((["SOLO", "GP"].map defNormHeader).findIdx?
        (fun hn => matchRel (defNormTarget "GP") hn)) ∧
    (scoringParseRow ["X"] ["5"] 2012).lookup "TD" = some "" :=
  ⟨C1_header_match_amended.2.2.1 "GP" ["SOLO", "GP"] (by decide) (by decide),
   C1_header_match_amended.2.2.2 "TD" ["X"] ["5"] 2012 (by decide) (by decide)⟩

/-! ## Theorems for claim C6 -/

/-- Claim C6 counterexample: fetch_receiving writes its year column first,
not last, so its all-years CSV is not the wanted columns followed by a final
Year column. -/
theorem C6_output_columns_counterexample :
    receivingOutCols.head? = some "year" ∧
    receivingOutCols.getLast? = some "AVG/G" ∧
    ¬ receivingOutCols = receivingWANTED ++ ["Year"] ∧
    ¬ receivingOutCols = receivingWANTED ++ ["year"] := by
  refine ⟨?_, ?_, ?_, ?_⟩ <;> decide

/-- Claim C6 amended: every fetch script writes exactly its fixed output
columns including a year column, with the year column last in every script
except fetch_receiving, which writes year first; the final selection fills a
missing column with empty strings and keeps no other column; a wanted column
with no matching header yields the empty string in every row except the Name
and # columns, which have fallback heuristics. -/
theorem C6_output_columns_amended :
    (∀ cols rows, (mainSelect cols rows).1 = cols ∧
        ∀ out ∈ (mainSelect cols rows).2, out.length = cols.length) ∧
    scoringOutCols = WANT_COLS ++ ["Year"] ∧
    defenseOutCols = DESIRED ++ ["Year"] ∧
    receivingOutCols = "year" :: ["#", "Name", "GP", "NO", "yds", "avg", "td", "long", "AVG/G"] ∧
    (∀ headers r y, (defenseRow headers r y).map Prod.fst = DESIRED ++ ["Year"]) ∧
    (∀ headers cells y, (receivingRow headers cells y).map Prod.fst =
        ["#", "Name", "GP", "NO", "yds", "avg", "td", "long", "AVG/G", "year"]) ∧
    (∀ headers cells, (v3MapRow headers cells).map Prod.fst = WANT_COLS) ∧
    (∀ col headers, ¬ col = "Name" → find_idx headers col = none →
        ∀ r y, (defenseRow headers r y).lookup col =
          if col ∈ DESIRED then some "" else (([("Year", toString y)] : List (String × String)).lookup col)) ∧
    (∀ w headers cells, w ∈ WANT_COLS → v3FindMatch w headers = none →
        (v3MapRow headers cells).lookup w = some "") := by
  refine ⟨?_, rfl, rfl, rfl, ?_, ?_, ?_, ?_, ?_⟩
  · intro cols rows
    refine ⟨rfl, ?_⟩
    intro out hout
    obtain ⟨r, _, rfl⟩ := List.mem_map.mp hout
    simp
  · intro headers r y
    rfl
  · intro headers cells y
    rfl
  · intro headers cells
    rfl
  · intro col headers hname hnone r y
    by_cases hcol : col ∈ DESIRED
    · rw [if_pos hcol]
      unfold defenseRow
      rw [lookup_map_key DESIRED _ col hcol]
      congr 1
      unfold defenseCellVal
      rw [hnone]
      have hcond : (col = "Name" && !(cellAt r (none : Option Nat)).toList.isEmpty) = false := by
        simp [hname]
      rw [if_neg (by simp [hcond, hname])]
      rfl
    · rw [if_neg hcol]
      unfold defenseRow
      exact lookup_map_key_not_mem DESIRED _ col hcol _
  · intro w headers cells hw hnone
    unfold v3MapRow
    rw [lookup_map_key_self WANT_COLS _ w hw]
    rw [hnone]

/-- Witness for the C6 amended theorem at concrete inputs. -/
theorem C6_output_columns_witness :
    (defenseRow ["SOLO"] ["4"] 2013).lookup "GP" =
      (if "GP" ∈ DESIRED then some "" else ([("Year", toString 2013)] : List (String × String)).lookup "GP") ∧
    (v3MapRow ["XYZQ"] ["9"]).lookup "FG" = some "" :=
  ⟨C6_output_columns_amended.2.2.2.2.2.2.2.1 "GP" ["SOLO"] (by decide) (by decide) ["4"] 2013,
   C6_output_columns_amended.2.2.2.2.2.2.2.2 "FG" ["XYZQ"] ["9"] (by decide) (by decide)⟩

/-! ## Theorems for claim C2 -/

/-- Claim C2 counterexample: fetch_defense overwrites its master CSV; a row
present before the run is gone afterwards, and the header is written again
even though the file existed. -/
theorem C2_master_append_counterexample :
    defenseWriteCsv (some [["h"], ["r1"]]) ["h"] [["r2"]] = [["h"], ["r2"]] ∧
    ["r1"] ∉ defenseWriteCsv (some [["h"], ["r1"]]) ["h"] [["r2"]] := by
  refine ⟨rfl, by decide⟩

/-- Claim C2 amended: the appending scripts (passing records.py,
all_time_season_rushing.py, fetch_receiving.py) preserve existing rows and
write the header only when the master file did not exist; fetch_defense.py
instead rewrites its output from scratch on every run, always with a header
and without the previous content. -/
theorem C2_master_append_amended :
    (∀ old hdr rows, csvAppendMaster (some old) hdr rows = old ++ rows) ∧
    (∀ hdr rows, csvAppendMaster none hdr rows = hdr :: rows) ∧
    (∀ ex hdr rows, defenseWriteCsv ex hdr rows = hdr :: rows) :=
  ⟨fun _ _ _ => rfl, fun _ _ => rfl, fun _ _ _ => rfl⟩

/-! ## Theorems for claim C3 -/

theorem runYearsCaught_go {α : Type} (results : List (Except String (List α)))
    (acc : List α × List String) :
    results.foldl caughtStep acc = (acc.1 ++ okRows results, acc.2 ++ errMsgs results) := by
  induction results generalizing acc with
  | nil => simp [okRows, errMsgs]
  | cons r rest ih =>
    cases r with
    | ok rows =>
      rw [List.foldl_cons]
      rw [ih]
      simp [caughtStep, okRows, errMsgs]
    | error e =>
      rw [List.foldl_cons]
      rw [ih]
      simp [caughtStep, okRows, errMsgs]

theorem v3Step_error_absorb {α : Type} (results : List (Except String (List α)))
    (e : String) : results.foldl v3Step (Except.error e) = Except.error e := by
  induction results with
  | nil => rfl
  | cons r rest ih =>
    rw [List.foldl_cons]
    cases r with
    | ok rows => exact ih
    | error e2 => exact ih

theorem v3RunYears_ok_go {α : Type} (results : List (Except String (List α)))
    (acc : List α) (h : ∀ r ∈ results, r.isOk = true) :
    results.foldl v3Step (Except.ok acc) = Except.ok (acc ++ okRows results) := by
  induction results generalizing acc with
  | nil => simp [okRows]
  | cons r rest ih =>
    cases r with
    | ok rows =>
      rw [List.foldl_cons]
      show rest.foldl v3Step (Except.ok (acc ++ rows)) = _
      rw [ih (acc ++ rows) (fun r hr => h r (List.mem_cons_of_mem _ hr))]
      simp [okRows]
    | error e =>
      exact absurd (h _ (List.mem_cons_self _ _)) (by simp [Except.isOk, Except.toBool])

theorem v3RunYears_error_go {α : Type} (results : List (Except String (List α)))
    (acc : List α) (e : String) (h : Except.error e ∈ results) :
    ∃ m, results.foldl v3Step (Except.ok acc) = Except.error m := by
  induction results generalizing acc with
  | nil => cases h
  | cons r rest ih =>
    rw [List.foldl_cons]
    cases r with
    | ok rows =>
      have hmem : Except.error e ∈ rest := by
        cases List.mem_cons.mp h with
        | inl h2 => cases h2
        | inr h2 => exact h2
      exact ih (acc ++ rows) hmem
    | error e2 =>
      exact ⟨e2, v3Step_error_absorb rest e2⟩

/-- Claim C3 counterexample: in fetch_scoring_v3.py the per-year loop has no
try block, so a parse failure in the first year aborts the run and the rows
already fetched for other years never reach the output file. -/
theorem C3_per_year_errors_counterexample :
    v3RunYears [Except.error "year 2012 parse failure",
      Except.ok [["Smith, John", "7"]]] = Except.error "year 2012 parse failure" := by
  rfl

/-- Claim C3 amended: fetch_scoring.py and record_game_results.py catch each
per-year failure, record its message and keep the rows of every other year;
fetch_scoring_v3.py silently turns failed requests into zero rows without
reporting, and any parse exception in one year aborts the whole run. -/
theorem C3_per_year_errors_amended :
    (∀ (rs : List (Except String (List (List String)))),
        runYearsCaught rs = (okRows rs, errMsgs rs)) ∧
    (∀ (rs : List (Except String (List (List String)))),
        (∀ r ∈ rs, r.isOk = true) → v3RunYears rs = Except.ok (okRows rs)) ∧
    (∀ (rs : List (Except String (List (List String)))) (e : String),
        Except.error e ∈ rs → ∃ m, v3RunYears rs = Except.error m) ∧
    (∀ (p : String → Except String (List (List String))),
        v3FetchYear none p = Except.ok []) := by
  refine ⟨?_, ?_, ?_, ?_⟩
  · intro rs
    unfold runYearsCaught
    rw [runYearsCaught_go]
    rfl
  · intro rs h
    unfold v3RunYears
    rw [v3RunYears_ok_go rs [] h]
    rfl
  · intro rs e h
    exact v3RunYears_error_go rs [] e h
  · intro p
    rfl

/-- Witness for the C3 amended theorem at concrete inputs. -/
theorem C3_per_year_errors_witness :
    v3RunYears [Except.ok [["a"]], Except.ok [["b"]]]
      = Except.ok (okRows [Except.ok [["a"]], Except.ok [["b"]]]) ∧
    (∃ m, v3RunYears [Except.ok [["a"]], Except.error "boom"] = Except.error m) :=
  ⟨C3_per_year_errors_amended.2.1 _ (by decide),
   C3_per_year_errors_amended.2.2.1 _ "boom"
     (List.mem_cons_of_mem _ (List.mem_cons_self _ _))⟩

/-! ## Theorems for claim C5 -/

/-- Claim C5: a duplicated table name makes main return exit code 2 with the
pre-existing output database untouched; without duplicates the output
database holds every table of every source under its original name. -/
theorem C5_merge_behavior :
    (∀ srcs ex, hasDupTables srcs = true → mergeMain srcs ex = (2, ex)) ∧
    (∀ srcs ex, hasDupTables srcs = false →
      ∀ db ∈ srcs, ∀ p ∈ db.tables,
        ∃ out, (mergeMain srcs ex).2 = some out ∧ p ∈ out) := by
  constructor
  · intro srcs ex h
    unfold mergeMain
    have hne : srcs.isEmpty = false := by
      cases srcs with
      | nil => simp [hasDupTables, allTableNames] at h
      | cons a l => rfl
    rw [if_neg (by simp [hne]), if_pos h]
  · intro srcs ex h db hdb p hp
    unfold mergeMain
    have hne : srcs.isEmpty = false := by
      cases srcs with
      | nil => cases hdb
      | cons a l => rfl
    rw [if_neg (by simp [hne]), if_neg (by simp [h])]
    refine ⟨_, rfl, ?_⟩
    rw [List.mem_flatten]
    exact ⟨db.tables, List.mem_map_of_mem _ hdb, hp⟩

/-- Witness for C5 at concrete databases. -/
theorem C5_merge_behavior_witness :
    mergeMain [⟨"a.db", [("t", [])]⟩, ⟨"b.db", [("t", [])]⟩] (some [("old", [["1"]])])
      = (2, some [("old", [["1"]])]) ∧
    (∃ out,
      (mergeMain [⟨"a.db", [("t1", [])]⟩, ⟨"b.db", [("t2", [["x"]])]⟩] none).2 = some out ∧
      ("t2", [["x"]]) ∈ out) :=
  ⟨C5_merge_behavior.1 _ _ (by decide),
   C5_merge_behavior.2 _ none (by decide) ⟨"b.db", [("t2", [["x"]])]⟩ (by decide)
     ("t2", [["x"]]) (by decide)⟩

/-! ## Theorems for claim C9 -/

theorem dedupeByKey_spec {κ : Type} [DecidableEq κ] (key : GameRow → κ)
    (rows : List GameRow) (seen : List κ) :
    List.Pairwise (fun a b => ¬ key a = key b) (dedupeByKey key rows seen) ∧
    ∀ r ∈ dedupeByKey key rows seen, ¬ key r ∈ seen := by
  induction rows generalizing seen with
  | nil =>
    constructor
    · exact List.Pairwise.nil
    · intro r hr
      cases hr
  | cons r rs ih =>
    by_cases hr : key r ∈ seen
    · rw [dedupeByKey, if_pos hr]
      exact ih seen
    · rw [dedupeByKey, if_neg hr]
      obtain ⟨ihp, ihm⟩ := ih (key r :: seen)
      constructor
      · apply List.Pairwise.cons
        · intro b hb hEq
          exact ihm b hb (hEq ▸ List.mem_cons_self _ _)
        · exact ihp
      · intro x hx
        cases List.mem_cons.mp hx with
        | inl h2 => exact h2 ▸ hr
        | inr h2 =>
          intro hmem
          exact ihm x h2 (List.mem_cons_of_mem _ hmem)

/-- Claim C9: scrape_season returns rows pairwise distinct on the date and
opponent pair and sorted nondecreasingly by date; scrape_years returns rows
pairwise distinct on the date, opponent, score triple and sorted
nondecreasingly by date. -/
theorem C9_game_results_invariants :
    (∀ rows, List.Pairwise (fun a b => ¬ seasonKey a = seasonKey b)
        (scrapeSeasonPost rows) ∧
      List.Sorted dateOrd (scrapeSeasonPost rows)) ∧
    (∀ results, List.Pairwise (fun a b => ¬ yearsKey a = yearsKey b)
        (scrapeYearsPost results) ∧
      List.Sorted dateOrd (scrapeYearsPost results)) := by
  have hpair : ∀ {κ : Type} (_ : DecidableEq κ) (f : GameRow → κ)
      (rows : List GameRow),
      List.Pairwise (fun a b => ¬ f a = f b)
        (List.insertionSort dateOrd (dedupeByKey f rows [])) := by
    intro κ inst f rows
    have hperm := List.perm_insertionSort dateOrd (dedupeByKey f rows [])
    have hsym : ∀ {x y : GameRow}, (¬ f x = f y) → ¬ f y = f x :=
      fun h h2 => h h2.symm
    exact (hperm.pairwise_iff hsym).mpr (dedupeByKey_spec f rows []).1
  refine ⟨fun rows => ⟨hpair inferInstance seasonKey rows, ?_⟩,
    fun results => ⟨hpair inferInstance yearsKey (okRows results), ?_⟩⟩
  · exact List.sorted_insertionSort dateOrd _
  · exact List.sorted_insertionSort dateOrd _

/-! ## Theorems for claim C4 -/

/-- Claim C4 counterexample: two scripts, not exactly one, persist their
results as SQLite databases. -/
theorem C4_sqlite_count_counterexample :
    sqliteScripts.length = 2 ∧ ¬ sqliteScripts.length = 1 := by
  refine ⟨?_, ?_⟩ <;> decide

/-- Claim C4 amended: exactly the two database utilities persist SQLite, and
every other script persists only CSV or JSON files. -/
theorem C4_sqlite_count_amended :
    sqliteScripts = ["scripts/xlsx_to_sqlite.py", "scripts/merge_to_single_db.py"] ∧
    (repoScripts.all (fun s =>
      s.writes.contains PersistKind.sqlite ||
      s.writes.all (fun k => k == PersistKind.csv || k == PersistKind.json))) = true := by
  refine ⟨?_, ?_⟩ <;> decide

/-! ## Theorems for claim C7 -/

/-- Claim C7 counterexample: xlsx_to_sqlite writes a SQLite database under
Excel and DB Files, merge_to_single_db reads every such file, and that file
is not a CSV, so two scripts exchange data through a non-CSV file. -/
theorem C7_exchange_counterexample :
    mergeReadsFile (xlsxDbOutput "team stats") = true ∧
    isCsvPath (xlsxDbOutput "team stats") = false := by
  refine ⟨?_, ?_⟩ <;> decide

theorem band_true {a b : Bool} (h : (a && b) = true) : a = true ∧ b = true := by
  simp only [Bool.and_eq_true] at h
  exact h

theorem startsSeq_head {a c : Char} {as l : List Char}
    (h : startsSeq (a :: as) (c :: l) = true) : a = c ∧ startsSeq as l = true := by
  simp only [startsSeq, Bool.and_eq_true, decide_eq_true_eq] at h
  exact h

theorem rev_head_of_strEnds {a : Char} {as : List Char} {suf p : String}
    (hsuf : suf.toList.reverse = a :: as) (h : strEnds suf p = true) :
    ∃ c l, p.toList.reverse = c :: l ∧ a = c := by
  unfold strEnds at h
  rw [hsuf] at h
  cases hp : p.toList.reverse with
  | nil =>
    rw [hp] at h
    cases h
  | cons c l =>
    rw [hp] at h
    exact ⟨c, l, rfl, (startsSeq_head h).1⟩

theorem strEnds_csv_ne_db (p : String) (h1 : strEnds ".csv" p = true)
    (h2 : strEnds ".db" p = true) : False := by
  obtain ⟨c1, l1, hp1, hc1⟩ := rev_head_of_strEnds (a := 'v') (by rfl) h1
  obtain ⟨c2, l2, hp2, hc2⟩ := rev_head_of_strEnds (a := 'b') (by rfl) h2
  rw [hp1] at hp2
  injection hp2 with h3 _
  rw [← hc1, ← hc2] at h3
  cases h3

theorem strEnds_csv_ne_xlsx (p : String) (h1 : strEnds ".csv" p = true)
    (h2 : strEnds ".xlsx" p = true) : False := by
  obtain ⟨c1, l1, hp1, hc1⟩ := rev_head_of_strEnds (a := 'v') (by rfl) h1
  obtain ⟨c2, l2, hp2, hc2⟩ := rev_head_of_strEnds (a := 'x') (by rfl) h2
  rw [hp1] at hp2
  injection hp2 with h3 _
  rw [← hc1, ← hc2] at h3
  cases h3

theorem strEnds_db_ne_xlsx (p : String) (h1 : strEnds ".db" p = true)
    (h2 : strEnds ".xlsx" p = true) : False := by
  obtain ⟨c1, l1, hp1, hc1⟩ := rev_head_of_strEnds (a := 'b') (by rfl) h1
  obtain ⟨c2, l2, hp2, hc2⟩ := rev_head_of_strEnds (a := 'x') (by rfl) h2
  rw [hp1] at hp2
  injection hp2 with h3 _
  rw [← hc1, ← hc2] at h3
  cases h3

theorem startsSeq_self_append (a b : List Char) : startsSeq a (a ++ b) = true := by
  induction a with
  | nil => rfl
  | cons c cs ih => simp [startsSeq, ih]

theorem strEnds_append (x suf : String) : strEnds suf (x ++ suf) = true := by
  unfold strEnds
  have hl : (x ++ suf).toList = x.toList ++ suf.toList := by
    simp [String.toList, String.data_append]
  rw [hl, List.reverse_append]
  exact startsSeq_self_append _ _

theorem patIsCsv_match (pat : PathPat) (p : String) (hcsv : patIsCsv pat = true)
    (h : matchesPat pat p = true) : isCsvPath p = true := by
  cases pat with
  | exact q =>
    have hp : p = q := by
      unfold matchesPat at h
      simpa using h
    rw [hp]
    exact hcsv
  | yearly pre suf =>
    have hsuf : suf = ".csv" := by
      unfold patIsCsv at hcsv
      simpa using hcsv
    unfold matchesPat at h
    obtain ⟨y, _, hbeq⟩ := List.any_eq_true.mp h
    have hp : p = pre ++ toString y ++ suf := by simpa using hbeq
    rw [hp, hsuf]
    unfold isCsvPath
    exact strEnds_append (pre ++ toString y) ".csv"
  | anyUnder dir suf =>
    have hsuf : suf = ".csv" := by
      unfold patIsCsv at hcsv
      simpa using hcsv
    unfold matchesPat at h
    unfold isCsvPath
    rw [← hsuf]
    exact (band_true h).2
  | anyUnderExcept dir suf excl =>
    have hsuf : suf = ".csv" := by
      unfold patIsCsv at hcsv
      simpa using hcsv
    unfold matchesPat at h
    unfold isCsvPath
    rw [← hsuf]
    exact (band_true (band_true h).1).2

/-- Claim C7 amended: no script imports another (every import is a library
module, never a repository module) and no script invokes another at
runtime; every file that one script writes and another script reads is a
CSV file, with one exception: the SQLite databases written by
xlsx_to_sqlite.py under Excel and DB Files are read by
merge_to_single_db.py. -/
theorem C7_exchange_amended :
    (scriptImports.all (fun q =>
      q.2.all (fun m => !(repoModuleNames.contains m)))) = true ∧
    (scriptInvocations.all (fun q => q.2.isEmpty)) = true ∧
    (∀ s ∈ scriptFileIO, ∀ t ∈ scriptFileIO, ∀ w ∈ s.writes, ∀ r ∈ t.reads,
      ∀ p, matchesPat w p = true → matchesPat r p = true →
        isCsvPath p = true ∨
        (s.name = "scripts/xlsx_to_sqlite.py" ∧
         t.name = "scripts/merge_to_single_db.py" ∧ strEnds ".db" p = true)) := by
  refine ⟨by decide, by decide, ?_⟩
  have hreads : ∀ t2 ∈ scriptFileIO, ∀ r2 ∈ t2.reads, patIsCsv r2 = true ∨
      (t2.name = "scripts/xlsx_to_sqlite.py" ∧
        r2 = PathPat.anyUnder "Excel and DB Files/" ".xlsx") ∨
      (t2.name = "scripts/merge_to_single_db.py" ∧
        r2 = PathPat.anyUnderExcept "Excel and DB Files/" ".db"
          "Excel and DB Files/DB files/all_tables.db") := by decide
  have hwrites : ∀ s2 ∈ scriptFileIO, ∀ w2 ∈ s2.writes, patIsCsv w2 = true ∨
      (s2.name = "scripts/xlsx_to_sqlite.py" ∧
        w2 = PathPat.anyUnder "Excel and DB Files/" ".db") ∨
      (s2.name = "scripts/merge_to_single_db.py" ∧
        w2 = PathPat.exact "Excel and DB Files/DB files/all_tables.db") := by decide
  intro s hs t ht w hw r hr p hwp hrp
  rcases hreads t ht r hr with hcsvr | ⟨hxt, hrx⟩ | ⟨hmt, hrm⟩
  · exact Or.inl (patIsCsv_match r p hcsvr hrp)
  · exfalso
    subst hrx
    have hxlsx : strEnds ".xlsx" p = true := by
      unfold matchesPat at hrp
      exact (band_true hrp).2
    rcases hwrites s hs w hw with hcsvw | ⟨hxs, hwx⟩ | ⟨hms, hwm⟩
    · exact strEnds_csv_ne_xlsx p (patIsCsv_match w p hcsvw hwp) hxlsx
    · subst hwx
      have hdb : strEnds ".db" p = true := by
        unfold matchesPat at hwp
        exact (band_true hwp).2
      exact strEnds_db_ne_xlsx p hdb hxlsx
    · subst hwm
      have hp : p = "Excel and DB Files/DB files/all_tables.db" := by
        unfold matchesPat at hwp
        simpa using hwp
      rw [hp] at hxlsx
      exact absurd hxlsx (by decide)
  · subst hrm
    have hdbp : strEnds ".db" p = true := by
      unfold matchesPat at hrp
      exact (band_true (band_true hrp).1).2
    have hnotex : (p == "Excel and DB Files/DB files/all_tables.db") = false := by
      unfold matchesPat at hrp
      have h2 := (band_true hrp).2
      simpa using h2
    rcases hwrites s hs w hw with hcsvw | ⟨hxs, hwx⟩ | ⟨hms, hwm⟩
    · exact (strEnds_csv_ne_db p (patIsCsv_match w p hcsvw hwp) hdbp).elim
    · exact Or.inr ⟨hxs, hmt, hdbp⟩
    · exfalso
      subst hwm
      have hp : (p == "Excel and DB Files/DB files/all_tables.db") = true := by
        unfold matchesPat at hwp
        exact hwp
      rw [hp] at hnotex
      cases hnotex

/-! ## Theorems for claim C8 -/

/-- Claim C8: under default arguments every URL any script requests is the
hurstathletics stats page, optionally with a season suffix from the default
2012 to 2025 range. -/
theorem C8_default_urls :
    (scriptRequestUrls.all (fun p => p.2.all goodStatsUrl)) = true := by
  decide

/-- Witness for the C7 amended theorem at concrete script pairs: the scoring
CSV flowing from fetch_scoring_v3 to clean_scoring, and a database flowing
from xlsx_to_sqlite to merge_to_single_db. -/
theorem C7_exchange_witness :
    (isCsvPath scoringCsvPath = true ∨
      (("scripts/fetch_scoring_v3.py" : String) = "scripts/xlsx_to_sqlite.py" ∧
       ("scripts/clean_scoring.py" : String) = "scripts/merge_to_single_db.py" ∧
       strEnds ".db" scoringCsvPath = true)) ∧
    (isCsvPath "Excel and DB Files/stats.db" = true ∨
      (("scripts/xlsx_to_sqlite.py" : String) = "scripts/xlsx_to_sqlite.py" ∧
       ("scripts/merge_to_single_db.py" : String) = "scripts/merge_to_single_db.py" ∧
       strEnds ".db" "Excel and DB Files/stats.db" = true)) :=
  ⟨C7_exchange_amended.2.2
      ⟨"scripts/fetch_scoring_v3.py", [], [PathPat.exact scoringCsvPath]⟩ (by decide)
      ⟨"scripts/clean_scoring.py", [PathPat.exact scoringCsvPath],
        [PathPat.exact scoringCsvPath]⟩ (by decide)
      (PathPat.exact scoringCsvPath) (by decide)
      (PathPat.exact scoringCsvPath) (by decide)
      scoringCsvPath (by decide) (by decide),
   C7_exchange_amended.2.2
      ⟨"scripts/xlsx_to_sqlite.py", [PathPat.anyUnder "Excel and DB Files/" ".xlsx"],
        [PathPat.anyUnder "Excel and DB Files/" ".db"]⟩ (by decide)
      ⟨"scripts/merge_to_single_db.py",
        [PathPat.anyUnderExcept "Excel and DB Files/" ".db"
          "Excel and DB Files/DB files/all_tables.db"],
        [PathPat.exact "Excel and DB Files/DB files/all_tables.db"]⟩ (by decide)
      (PathPat.anyUnder "Excel and DB Files/" ".db") (by decide)
      (PathPat.anyUnderExcept "Excel and DB Files/" ".db"
        "Excel and DB Files/DB files/all_tables.db") (by decide)
      "Excel and DB Files/stats.db" (by decide) (by decide)⟩
